import Mathlib

/-!
Verification of the block representation and structural-validation core of
an ethereumjs-vm style blockchain client, together with the
`eth_getBlockTransactionCountByHash` RPC handler.

The Block entity (header, ordered transactions, ordered uncle headers, a
per-instance transaction-trie cache) is embedded from the specification:
only its test file is present in the repository sources, so each Block
operation below is a spec-modelled definition.  The RPC handler
`getBlockTransactionCountByHash` is embedded from
`packages/client/lib/rpc/modules/eth.ts`, which is present in the sources.

Byte strings are modelled as `List Nat`; the cryptographic digest primitive
is an explicit function parameter `D : Bytes → Bytes` (the spec treats it as
an opaque external function), and the canonical ordered-list codec is a
concrete length-prefixing encoder.
-/

namespace EthBlock

/-- A byte sequence (the canonical codec and digest operate on these). -/
abbrev Bytes := List Nat

/-- Modelled from the spec: the external canonical codec's encoding of a
single byte string inside a list (length-prefixed). -/
def encodeBytes (b : Bytes) : Bytes := b.length :: b

/-- Modelled from the spec: the external canonical codec `encode(list) -> bytes`
for an ordered list of byte strings. -/
def encodeList (xs : List Bytes) : Bytes := xs.length :: (xs.map encodeBytes).flatten

/-- Modelled from the spec: a Transaction is external and opaque beyond
`isValid`, `serialize` and `hash`; we record the three observables. -/
structure Tx where
  ser : Bytes
  valid : Bool
  txHash : Bytes
deriving Repr, DecidableEq

/-- Modelled from the spec: the fixed-shape 15-field block header record, in
the spec's fixed order.  `number` etc. are canonical minimal-length
big-endian byte sequences (zero = zero-length sequence). -/
structure BlockHeader where
  parentHash : Bytes
  unclesHash : Bytes
  coinbase : Bytes
  stateRoot : Bytes
  transactionsTrie : Bytes
  receiptsTrie : Bytes
  logsBloom : Bytes
  difficulty : Bytes
  number : Bytes
  gasLimit : Bytes
  gasUsed : Bytes
  timestamp : Bytes
  extraData : Bytes
  mixHash : Bytes
  nonce : Bytes
deriving Repr, DecidableEq

/-- The header's 15 fields in canonical fixed order. -/
def BlockHeader.fieldList (h : BlockHeader) : List Bytes :=
  [h.parentHash, h.unclesHash, h.coinbase, h.stateRoot, h.transactionsTrie,
   h.receiptsTrie, h.logsBloom, h.difficulty, h.number, h.gasLimit, h.gasUsed,
   h.timestamp, h.extraData, h.mixHash, h.nonce]

/-- Modelled from the spec: `BlockHeader.encode()` is the canonical byte
sequence of the 15 fields in fixed order. -/
def BlockHeader.encode (h : BlockHeader) : Bytes := encodeList h.fieldList

/-- Modelled from the spec: a Block owns exactly one header, an ordered
transaction sequence, an ordered uncle-header sequence, and a per-instance
transaction-trie cache holding the last computed root. -/
structure Block where
  header : BlockHeader
  transactions : List Tx
  uncleHeaders : List BlockHeader
  txTrieCache : Option Bytes
deriving Repr, DecidableEq

/-- Modelled from the spec: the well-known canonical empty-tree root
constant (digest of the codec's empty item), a fixed 32-byte value. -/
def emptyTreeRoot : Bytes :=
  [0x56, 0xe8, 0x1f, 0x17, 0x1b, 0xcc, 0x55, 0xa6, 0xff, 0x83, 0x45, 0xe6,
   0x92, 0xc0, 0xf8, 0x6e, 0x5b, 0x48, 0xe0, 0x1b, 0x99, 0x6c, 0xad, 0xc0,
   0x01, 0x62, 0x2f, 0xb5, 0xe3, 0x63, 0xb4, 0x21]

/-- Modelled from the spec (§4.2 TransactionTrieBuilder): each transaction at
position i is inserted under key = canonical-encode(i) with value =
serialize(transaction); the root digest commits to the indexed list.  Zero
transactions yield the well-known canonical empty-tree root constant. -/
def genTxTrieRoot (D : Bytes → Bytes) (txs : List Tx) : Bytes :=
  match txs with
  | [] => emptyTreeRoot
  | _ => D (encodeList (txs.enum.map (fun p => encodeBytes [p.1] ++ p.2.ser)))

/-- Modelled from the spec (§4.4): computes (or returns cached) the
transaction-trie root; the cache is owned by the Block instance.  Returns
the root together with the post-call block state. -/
def Block.genTxTrie (D : Bytes → Bytes) (b : Block) : Bytes × Block :=
  match b.txTrieCache with
  | some r => (r, b)
  | none =>
      let r := genTxTrieRoot D b.transactions
      (r, { b with txTrieCache := some r })

/-- Modelled from the spec (§4.5): compares the materialized trie root
(triggering genTxTrie if not already cached) against
`header.transactionsTrie`; returns their equality. -/
def Block.validateTransactionsTrie (D : Bytes → Bytes) (b : Block) : Bool :=
  decide ((b.genTxTrie D).1 = b.header.transactionsTrie)

/-- Modelled from the spec (§4.3): true iff every transaction in the block's
list independently satisfies its validity predicate. -/
def Block.validateTransactions (b : Block) : Bool :=
  b.transactions.all (fun t => t.valid)

/-- Canonical encoding of the ordered uncle-header list (each uncle encoded
with the full 15-field header encoding). -/
def encodeUncles (uncles : List BlockHeader) : Bytes :=
  encodeList (uncles.map BlockHeader.encode)

/-- Modelled from the spec (§4.6): computes
Digest(canonical-encode(list of encoded uncle headers)) and compares against
`header.unclesHash`. -/
def Block.validateUnclesHash (D : Bytes → Bytes) (b : Block) : Bool :=
  decide (D (encodeUncles b.uncleHeaders) = b.header.unclesHash)

/-- Modelled from the spec (§4.7): true iff `header.number`'s canonical byte
encoding is the zero-length sequence (checked at the byte level). -/
def Block.isGenesis (b : Block) : Bool :=
  decide (b.header.number = ([] : Bytes))

/-- Modelled from the spec (§4.10): block identity hash =
Digest(header.encode()); depends solely on the header bytes. -/
def Block.hash (D : Bytes → Bytes) (b : Block) : Bytes :=
  D b.header.encode

/-- Modelled from the spec (§4.9): canonical encoding of the 3-tuple
[header-field-list, transaction-list, uncle-header-list]. -/
def Block.serialize (b : Block) : Bytes :=
  encodeList [b.header.encode,
              encodeList (b.transactions.map (fun t => t.ser)),
              encodeUncles b.uncleHeaders]

/-- A 32-byte zero digest. -/
def zeroDigest : Bytes := List.replicate 32 0

/-- Modelled from the spec: the primary-network (mainnet) precomputed genesis
state root constant. -/
def mainnetStateRoot : Bytes :=
  [0xd7, 0xf8, 0x97, 0x4f, 0xb5, 0xac, 0x78, 0xd9, 0xac, 0x09, 0x9b, 0x9a,
   0xd5, 0x01, 0x8b, 0xed, 0xc2, 0xce, 0x0a, 0x72, 0xda, 0xd1, 0x82, 0x7a,
   0x17, 0x09, 0xda, 0x30, 0x58, 0x0f, 0x05, 0x44]

/-- The ropsten precomputed genesis state root constant, the reference value
appearing in the repository's test file. -/
def ropstenStateRoot : Bytes :=
  [0x21, 0x7b, 0x0b, 0xbc, 0xfb, 0x72, 0xe2, 0xd5, 0x7e, 0x28, 0xf3, 0x3c,
   0xb3, 0x61, 0xb9, 0x98, 0x35, 0x13, 0x17, 0x77, 0x55, 0xdc, 0x3f, 0x33,
   0xce, 0x3e, 0x70, 0x22, 0xed, 0x62, 0xb7, 0x7b]

/-- Modelled from the spec (§3 GenesisParameters): per chain identifier,
fixed difficulty, gasLimit, nonce, mixHash, coinbase, timestamp, extraData
and a precomputed stateRoot constant. -/
structure GenesisParams where
  difficulty : Bytes
  gasLimit : Bytes
  nonce : Bytes
  extraData : Bytes
  mixHash : Bytes
  coinbase : Bytes
  timestamp : Bytes
  stateRoot : Bytes
deriving Repr, DecidableEq

/-- Modelled from the spec: the primary-network genesis parameter set. -/
def mainnetGenesisParams : GenesisParams :=
  { difficulty := [0x04, 0x00, 0x00, 0x00, 0x00]
    gasLimit := [0x13, 0x88]
    nonce := [0x00, 0x00, 0x00, 0x00, 0x00, 0x00, 0x00, 0x42]
    extraData := [0x11, 0xbb, 0xe8, 0xdb, 0x4e, 0x34, 0x7b, 0x4e, 0x8c, 0x93,
                  0x7c, 0x1c, 0x83, 0x70, 0xe4, 0xb5, 0xed, 0x33, 0xad, 0xb3,
                  0xdb, 0x69, 0xcb, 0xdb, 0x7a, 0x38, 0xe1, 0xe5, 0x0b, 0x1b,
                  0x82, 0xfa]
    mixHash := zeroDigest
    coinbase := List.replicate 20 0
    timestamp := []
    stateRoot := mainnetStateRoot }

/-- Modelled from the spec: the ropsten genesis parameter set (stateRoot is
the reference constant from the repository's test file). -/
def ropstenGenesisParams : GenesisParams :=
  { difficulty := [0x10, 0x00, 0x00]
    gasLimit := [0x01, 0x00, 0x00, 0x00]
    nonce := [0x00, 0x00, 0x00, 0x00, 0x00, 0x00, 0x00, 0x42]
    extraData := List.replicate 32 0x35
    mixHash := zeroDigest
    coinbase := List.replicate 20 0
    timestamp := []
    stateRoot := ropstenStateRoot }

/-- Modelled from the spec: the immutable GenesisRegistry, chain identifier →
fixed genesis parameter set. -/
def GenesisRegistry : String → Option GenesisParams
  | "mainnet" => some mainnetGenesisParams
  | "ropsten" => some ropstenGenesisParams
  | _ => none

/-- Modelled from the spec (§7): the error kind raised by `setGenesisParams`
for an unregistered chain identifier. -/
inductive GenesisErr where
  | unknownChain
deriving Repr, DecidableEq

/-- Modelled from the spec (§4.8): looks up `GenesisRegistry[chainId]`; fails
with `UnknownChainError` if absent, with no partial mutation performed.  On
success overwrites difficulty, gasLimit, nonce, extraData, mixHash, coinbase,
timestamp, stateRoot from the registry entry, sets parentHash to the zero
digest and number to the zero-length sequence.  The result pairs the call's
outcome with the post-call block state. -/
def Block.setGenesisParams (b : Block) (chainId : String) :
    Except GenesisErr Unit × Block :=
  match GenesisRegistry chainId with
  | none => (Except.error GenesisErr.unknownChain, b)
  | some g =>
      (Except.ok (),
       { b with header :=
          { b.header with
             difficulty := g.difficulty
             gasLimit := g.gasLimit
             nonce := g.nonce
             extraData := g.extraData
             mixHash := g.mixHash
             coinbase := g.coinbase
             timestamp := g.timestamp
             stateRoot := g.stateRoot
             parentHash := zeroDigest
             number := [] } })

/-- Modelled from the spec: the default header of a freshly constructed
empty block (`new Block()`); its `number` is a nonzero-length encoding (the
test file's fresh block is not genesis until `number` is set to the
zero-length sequence). -/
def defaultHeader : BlockHeader :=
  { parentHash := zeroDigest
    unclesHash :=
      [0x1d, 0xcc, 0x4d, 0xe8, 0xde, 0xc7, 0x5d, 0x7a, 0xab, 0x85, 0xb5,
       0x67, 0xb6, 0xcc, 0xd4, 0x1a, 0xd3, 0x12, 0x45, 0x1b, 0x94, 0x8a,
       0x74, 0x13, 0xf0, 0xa1, 0x42, 0xfd, 0x40, 0xd4, 0x93, 0x47]
    coinbase := List.replicate 20 0
    stateRoot := zeroDigest
    transactionsTrie := emptyTreeRoot
    receiptsTrie := emptyTreeRoot
    logsBloom := List.replicate 256 0
    difficulty := []
    number := [0x00]
    gasLimit := [0x13, 0x88]
    gasUsed := []
    timestamp := []
    extraData := []
    mixHash := zeroDigest
    nonce := List.replicate 8 0 }

/-- A freshly constructed empty block: default header, no transactions, no
uncles, no cached trie root. -/
def emptyBlock : Block :=
  { header := defaultHeader
    transactions := []
    uncleHeaders := []
    txTrieCache := none }

/-- A transaction entry of the structured presentation value: either the
transaction's hash only, or the full transaction record. -/
inductive TxJson where
  | hashOnly (h : Bytes)
  | full (t : Tx)
deriving Repr, DecidableEq

/-- Modelled from the spec (§4.11): the externally consumable structured
value produced by `toJSON`. -/
structure BlockJson where
  headerFields : List Bytes
  transactions : List TxJson
  uncleHeaders : List (List Bytes)
deriving Repr, DecidableEq

/-- Modelled from the spec (§4.11): header fields plus transactions (full
records if the include-flag is set, else transaction hashes only) plus uncle
headers. -/
def Block.toJSON (b : Block) (labelled : Bool) : BlockJson :=
  { headerFields := b.header.fieldList
    transactions :=
      if labelled then b.transactions.map TxJson.full
      else b.transactions.map (fun t => TxJson.hashOnly t.txHash)
    uncleHeaders := b.uncleHeaders.map BlockHeader.fieldList }

/-- The observable outcome of one RPC callback invocation: either a null
error with a value, or an error with no value. -/
inductive CbCall (ε : Type) where
  | ok (val : String)
  | err (e : ε)
deriving Repr, DecidableEq

/-- Lowercase hexadecimal rendering of a natural number, mirroring the
semantics of JavaScript's Number.prototype.toString(16) (zero renders as
the single digit 0). -/
def natToHex (n : Nat) : String := String.mk (Nat.toDigits 16 n)

/-- Embeds `Eth.getBlockTransactionCountByHash` from
`packages/client/lib/rpc/modules/eth.ts`: resolves the block by hash through
the external chain (`getBlock`), and on success invokes the callback with
null error and the string 0x followed by the hex length of the block's
transaction list from its structured form; if the lookup throws, invokes the
callback with that error and no value. -/
def getBlockTransactionCountByHash {ε : Type}
    (getBlock : Bytes → Except ε Block) (blockHash : Bytes) : CbCall ε :=
  match getBlock blockHash with
  | Except.ok block =>
      CbCall.ok ("0x" ++ natToHex (block.toJSON false).transactions.length)
  | Except.error e => CbCall.err e

/-- Modelled from the spec: the fixed reference byte string for the
primary-network genesis block's full serialization.  The repository's
fixture file carrying this constant is not under the available sources, so
it is fixed here as a concrete byte list (the canonical encoding of the
registry's primary-network genesis parameters under the modelled codec). -/
def referenceGenesisSerialized : Bytes :=
  [3, 531, 15, 32, 0, 0, 0, 0, 0, 0, 0, 0, 0, 0, 0, 0, 0, 0, 0, 0, 0, 0,
   0, 0, 0, 0, 0, 0, 0, 0, 0, 0, 0, 0, 0, 0, 32, 29, 204, 77, 232, 222,
   199, 93, 122, 171, 133, 181, 103, 182, 204, 212, 26, 211, 18, 69, 27,
   148, 138, 116, 19, 240, 161, 66, 253, 64, 212, 147, 71, 20, 0, 0, 0, 0,
   0, 0, 0, 0, 0, 0, 0, 0, 0, 0, 0, 0, 0, 0, 0, 0, 32, 215, 248, 151, 79,
   181, 172, 120, 217, 172, 9, 155, 154, 213, 1, 139, 237, 194, 206, 10,
   114, 218, 209, 130, 122, 23, 9, 218, 48, 88, 15, 5, 68, 32, 86, 232,
   31, 23, 27, 204, 85, 166, 255, 131, 69, 230, 146, 192, 248, 110, 91,
   72, 224, 27, 153, 108, 173, 192, 1, 98, 47, 181, 227, 99, 180, 33, 32,
   86, 232, 31, 23, 27, 204, 85, 166, 255, 131, 69, 230, 146, 192, 248,
   110, 91, 72, 224, 27, 153, 108, 173, 192, 1, 98, 47, 181, 227, 99, 180,
   33, 256, 0, 0, 0, 0, 0, 0, 0, 0, 0, 0, 0, 0, 0, 0, 0, 0, 0, 0, 0, 0, 0,
   0, 0, 0, 0, 0, 0, 0, 0, 0, 0, 0, 0, 0, 0, 0, 0, 0, 0, 0, 0, 0, 0, 0, 0,
   0, 0, 0, 0, 0, 0, 0, 0, 0, 0, 0, 0, 0, 0, 0, 0, 0, 0, 0, 0, 0, 0, 0, 0,
   0, 0, 0, 0, 0, 0, 0, 0, 0, 0, 0, 0, 0, 0, 0, 0, 0, 0, 0, 0, 0, 0, 0, 0,
   0, 0, 0, 0, 0, 0, 0, 0, 0, 0, 0, 0, 0, 0, 0, 0, 0, 0, 0, 0, 0, 0, 0, 0,
   0, 0, 0, 0, 0, 0, 0, 0, 0, 0, 0, 0, 0, 0, 0, 0, 0, 0, 0, 0, 0, 0, 0, 0,
   0, 0, 0, 0, 0, 0, 0, 0, 0, 0, 0, 0, 0, 0, 0, 0, 0, 0, 0, 0, 0, 0, 0, 0,
   0, 0, 0, 0, 0, 0, 0, 0, 0, 0, 0, 0, 0, 0, 0, 0, 0, 0, 0, 0, 0, 0, 0, 0,
   0, 0, 0, 0, 0, 0, 0, 0, 0, 0, 0, 0, 0, 0, 0, 0, 0, 0, 0, 0, 0, 0, 0, 0,
   0, 0, 0, 0, 0, 0, 0, 0, 0, 0, 0, 0, 0, 0, 0, 0, 0, 0, 0, 0, 0, 0, 0, 0,
   0, 0, 0, 0, 0, 0, 0, 0, 0, 0, 0, 0, 0, 0, 0, 0, 0, 0, 0, 5, 4, 0, 0, 0,
   0, 0, 2, 19, 136, 0, 0, 32, 17, 187, 232, 219, 78, 52, 123, 78, 140,
   147, 124, 28, 131, 112, 228, 181, 237, 51, 173, 179, 219, 105, 203,
   219, 122, 56, 225, 229, 11, 27, 130, 250, 32, 0, 0, 0, 0, 0, 0, 0, 0,
   0, 0, 0, 0, 0, 0, 0, 0, 0, 0, 0, 0, 0, 0, 0, 0, 0, 0, 0, 0, 0, 0, 0, 0,
   8, 0, 0, 0, 0, 0, 0, 0, 66, 1, 0, 1, 0]

/-- Modelled from the spec: the fixed reference byte string of the
primary-network genesis header encoding, the preimage of the reference
genesis digest (the digest primitive itself is external and opaque). -/
def referenceGenesisHeaderBytes : Bytes :=
  [15, 32, 0, 0, 0, 0, 0, 0, 0, 0, 0, 0, 0, 0, 0, 0, 0, 0, 0, 0, 0, 0, 0,
   0, 0, 0, 0, 0, 0, 0, 0, 0, 0, 0, 32, 29, 204, 77, 232, 222, 199, 93,
   122, 171, 133, 181, 103, 182, 204, 212, 26, 211, 18, 69, 27, 148, 138,
   116, 19, 240, 161, 66, 253, 64, 212, 147, 71, 20, 0, 0, 0, 0, 0, 0, 0,
   0, 0, 0, 0, 0, 0, 0, 0, 0, 0, 0, 0, 0, 32, 215, 248, 151, 79, 181, 172,
   120, 217, 172, 9, 155, 154, 213, 1, 139, 237, 194, 206, 10, 114, 218,
   209, 130, 122, 23, 9, 218, 48, 88, 15, 5, 68, 32, 86, 232, 31, 23, 27,
   204, 85, 166, 255, 131, 69, 230, 146, 192, 248, 110, 91, 72, 224, 27,
   153, 108, 173, 192, 1, 98, 47, 181, 227, 99, 180, 33, 32, 86, 232, 31,
   23, 27, 204, 85, 166, 255, 131, 69, 230, 146, 192, 248, 110, 91, 72,
   224, 27, 153, 108, 173, 192, 1, 98, 47, 181, 227, 99, 180, 33, 256, 0,
   0, 0, 0, 0, 0, 0, 0, 0, 0, 0, 0, 0, 0, 0, 0, 0, 0, 0, 0, 0, 0, 0, 0, 0,
   0, 0, 0, 0, 0, 0, 0, 0, 0, 0, 0, 0, 0, 0, 0, 0, 0, 0, 0, 0, 0, 0, 0, 0,
   0, 0, 0, 0, 0, 0, 0, 0, 0, 0, 0, 0, 0, 0, 0, 0, 0, 0, 0, 0, 0, 0, 0, 0,
   0, 0, 0, 0, 0, 0, 0, 0, 0, 0, 0, 0, 0, 0, 0, 0, 0, 0, 0, 0, 0, 0, 0, 0,
   0, 0, 0, 0, 0, 0, 0, 0, 0, 0, 0, 0, 0, 0, 0, 0, 0, 0, 0, 0, 0, 0, 0, 0,
   0, 0, 0, 0, 0, 0, 0, 0, 0, 0, 0, 0, 0, 0, 0, 0, 0, 0, 0, 0, 0, 0, 0, 0,
   0, 0, 0, 0, 0, 0, 0, 0, 0, 0, 0, 0, 0, 0, 0, 0, 0, 0, 0, 0, 0, 0, 0, 0,
   0, 0, 0, 0, 0, 0, 0, 0, 0, 0, 0, 0, 0, 0, 0, 0, 0, 0, 0, 0, 0, 0, 0, 0,
   0, 0, 0, 0, 0, 0, 0, 0, 0, 0, 0, 0, 0, 0, 0, 0, 0, 0, 0, 0, 0, 0, 0, 0,
   0, 0, 0, 0, 0, 0, 0, 0, 0, 0, 0, 0, 0, 0, 0, 0, 0, 0, 0, 0, 0, 0, 0, 0,
   0, 0, 0, 0, 0, 0, 0, 0, 0, 0, 0, 0, 0, 0, 0, 5, 4, 0, 0, 0, 0, 0, 2,
   19, 136, 0, 0, 32, 17, 187, 232, 219, 78, 52, 123, 78, 140, 147, 124,
   28, 131, 112, 228, 181, 237, 51, 173, 179, 219, 105, 203, 219, 122, 56,
   225, 229, 11, 27, 130, 250, 32, 0, 0, 0, 0, 0, 0, 0, 0, 0, 0, 0, 0, 0,
   0, 0, 0, 0, 0, 0, 0, 0, 0, 0, 0, 0, 0, 0, 0, 0, 0, 0, 0, 8, 0, 0, 0, 0,
   0, 0, 0, 66]

/-- A concrete transaction fixture. -/
def tx0 : Tx := { ser := [0x01], valid := true, txHash := [0xaa] }

/-- A concrete invalid-transaction fixture. -/
def txBad : Tx := { ser := [0x02], valid := false, txHash := [0xbb] }

/-- A block fixture whose declared `unclesHash` matches the identity digest
of its (empty) uncle list. -/
def unclesOkBlock : Block :=
  { emptyBlock with header := { defaultHeader with unclesHash := encodeList [] } }

/-- A block fixture carrying two transactions. -/
def gb2 : Block := { emptyBlock with transactions := [tx0, tx0] }

/-- C1: `Block.validateTransactionsTrie()` returns true if and only if the
materialized transaction-trie root (computed by genTxTrie if not already
cached) equals `header.transactionsTrie`; in particular, for a block with
an empty transaction list (and no cached root yet) whose
`header.transactionsTrie` is the canonical empty-tree root constant, it
returns true. -/
theorem validateTransactionsTrie_spec (D : Bytes → Bytes) (b : Block) :
    (b.validateTransactionsTrie D = true ↔
      (b.genTxTrie D).1 = b.header.transactionsTrie) ∧
    (b.transactions = [] → b.txTrieCache = none →
      b.header.transactionsTrie = emptyTreeRoot →
      b.validateTransactionsTrie D = true) := by
  constructor
  · simp [Block.validateTransactionsTrie]
  · intro ht hc hr
    simp [Block.validateTransactionsTrie, Block.genTxTrie, hc, ht, hr,
      genTxTrieRoot]

/-- Witness for C1 at the freshly constructed empty block with the identity
digest. -/
theorem validateTransactionsTrie_spec_witness :
    emptyBlock.validateTransactionsTrie (fun x => x) = true :=
  (validateTransactionsTrie_spec (fun x => x) emptyBlock).2 rfl rfl rfl

/-- C2: `genTxTrie` is idempotent and deterministic: a second call on the
post-call state returns the same root and state; with a cached root the
call returns the cached result without rebuilding; and two blocks with
identical transaction lists (both uncached) produce identical roots. -/
theorem genTxTrie_spec (D : Bytes → Bytes) (b b₂ : Block) (r : Bytes) :
    ((b.genTxTrie D).2.genTxTrie D = b.genTxTrie D) ∧
    (b.txTrieCache = some r → b.genTxTrie D = (r, b)) ∧
    (b.transactions = b₂.transactions → b.txTrieCache = none →
      b₂.txTrieCache = none → (b.genTxTrie D).1 = (b₂.genTxTrie D).1) := by
  refine ⟨?_, ?_, ?_⟩
  · cases hc : b.txTrieCache with
    | some r0 => simp [Block.genTxTrie, hc]
    | none => simp [Block.genTxTrie, hc]
  · intro h
    simp [Block.genTxTrie, h]
  · intro ht h1 h2
    simp [Block.genTxTrie, h1, h2, ht]

/-- Witness for C2: the cached-result clause at a concrete cached block, and
the determinism clause at the concrete empty block. -/
theorem genTxTrie_spec_witness :
    ({ emptyBlock with txTrieCache := some emptyTreeRoot } : Block).genTxTrie
        (fun x => x) =
      (emptyTreeRoot, { emptyBlock with txTrieCache := some emptyTreeRoot }) ∧
    (emptyBlock.genTxTrie (fun x => x)).1 =
      (emptyBlock.genTxTrie (fun x => x)).1 :=
  ⟨(genTxTrie_spec (fun x => x)
      { emptyBlock with txTrieCache := some emptyTreeRoot }
      emptyBlock emptyTreeRoot).2.1 rfl,
   (genTxTrie_spec (fun x => x) emptyBlock emptyBlock emptyTreeRoot).2.2
      rfl rfl rfl⟩

/-- C3: `Block.isGenesis()` returns true iff `header.number`'s canonical
byte encoding is the zero-length sequence; a `header.number` encoded as a
single zero byte does not count as genesis. -/
theorem isGenesis_spec (b : Block) :
    (b.isGenesis = true ↔ b.header.number = ([] : Bytes)) ∧
    (b.header.number = [0x00] → b.isGenesis = false) := by
  constructor
  · simp [Block.isGenesis]
  · intro h
    simp [Block.isGenesis, h]

/-- Witness for C3: the freshly constructed block's number is the single
zero byte, so it is not genesis. -/
theorem isGenesis_spec_witness : emptyBlock.isGenesis = false :=
  (isGenesis_spec emptyBlock).2 rfl

set_option maxRecDepth 16384 in
/-- C4: after `setGenesisParams` on a freshly constructed empty block, the
mainnet and ropsten chain identifiers yield different `header.stateRoot`
values each equal to its fixed reference constant; the mainnet genesis
block's serialization equals the fixed reference genesis byte string and
its hash is the digest of the fixed reference genesis header bytes. -/
theorem setGenesisParams_genesis_constants :
    (emptyBlock.setGenesisParams "mainnet").2.header.stateRoot =
      mainnetStateRoot ∧
    (emptyBlock.setGenesisParams "ropsten").2.header.stateRoot =
      ropstenStateRoot ∧
    mainnetStateRoot ≠ ropstenStateRoot ∧
    (emptyBlock.setGenesisParams "mainnet").2.serialize =
      referenceGenesisSerialized ∧
    ∀ D : Bytes → Bytes,
      (emptyBlock.setGenesisParams "mainnet").2.hash D =
        D referenceGenesisHeaderBytes := by
  refine ⟨rfl, rfl, by decide, by decide, fun D => ?_⟩
  exact congrArg D (by decide)

/-- C5: for every chain identifier absent from the GenesisRegistry,
`setGenesisParams` fails with UnknownChainError and the post-call block
state is the unmodified input block (all-or-nothing). -/
theorem setGenesisParams_unknown_chain (b : Block) (c : String)
    (h : GenesisRegistry c = none) :
    b.setGenesisParams c = (Except.error GenesisErr.unknownChain, b) := by
  simp [Block.setGenesisParams, h]

/-- Witness for C5 at a concrete unregistered chain identifier. -/
theorem setGenesisParams_unknown_chain_witness :
    emptyBlock.setGenesisParams "goerli" =
      (Except.error GenesisErr.unknownChain, emptyBlock) :=
  setGenesisParams_unknown_chain emptyBlock "goerli" rfl

/-- C6: `Block.validateUnclesHash()` returns true iff
Digest(canonical-encode(list of encoded uncle headers)) equals
`header.unclesHash`; with zero uncles the comparison is against the digest
of the canonical empty-list encoding; and replacing the uncle list by one
with a different encoding (for any injective digest) flips a true result
to false. -/
theorem validateUnclesHash_spec (D : Bytes → Bytes) (b : Block)
    (u : List BlockHeader) :
    (b.validateUnclesHash D = true ↔
      D (encodeUncles b.uncleHeaders) = b.header.unclesHash) ∧
    (b.uncleHeaders = [] →
      (b.validateUnclesHash D = true ↔
        b.header.unclesHash = D (encodeList []))) ∧
    (Function.Injective D → b.validateUnclesHash D = true →
      encodeUncles u ≠ encodeUncles b.uncleHeaders →
      Block.validateUnclesHash D { b with uncleHeaders := u } = false) := by
  refine ⟨by simp [Block.validateUnclesHash], ?_, ?_⟩
  · intro h
    simp [Block.validateUnclesHash, h, encodeUncles, eq_comm]
  · intro hD hv hne
    simp [Block.validateUnclesHash] at hv ⊢
    intro heq
    exact hne (hD (heq.trans hv.symm))

/-- Witness for C6: with the identity digest, a block whose declared
`unclesHash` matches its empty uncle list validates, and swapping in a
nonempty uncle list flips validation to false. -/
theorem validateUnclesHash_spec_witness :
    Block.validateUnclesHash (fun x => x)
      { unclesOkBlock with uncleHeaders := [defaultHeader] } = false :=
  (validateUnclesHash_spec (fun x => x) unclesOkBlock [defaultHeader]).2.2
    (fun _ _ h => h) (by decide) (by decide)

/-- C7: `Block.validateTransactions()` returns true iff every transaction
in the block's list individually satisfies its validity predicate; an
empty transaction list is vacuously valid. -/
theorem validateTransactions_spec (b : Block) :
    (b.validateTransactions = true ↔
      ∀ t ∈ b.transactions, t.valid = true) ∧
    (b.transactions = [] → b.validateTransactions = true) := by
  constructor
  · simp [Block.validateTransactions, List.all_eq_true]
  · intro h
    simp [Block.validateTransactions, h]

/-- Witness for C7: the empty-transaction-list block validates. -/
theorem validateTransactions_spec_witness :
    emptyBlock.validateTransactions = true :=
  (validateTransactions_spec emptyBlock).2 rfl

/-- C8: `Block.hash()` equals Digest(header.encode()) and depends only on
the header: two blocks with identical headers have identical hashes. -/
theorem hash_spec (D : Bytes → Bytes) (b₁ b₂ : Block) :
    b₁.hash D = D b₁.header.encode ∧
    (b₁.header = b₂.header → b₁.hash D = b₂.hash D) := by
  refine ⟨rfl, fun h => ?_⟩
  simp [Block.hash, h]

/-- Witness for C8: the empty block and a block with an added transaction
share the header, hence the hash, under the identity digest. -/
theorem hash_spec_witness :
    emptyBlock.hash (fun x => x) =
      ({ emptyBlock with transactions := [tx0] } : Block).hash (fun x => x) :=
  (hash_spec (fun x => x) emptyBlock
    { emptyBlock with transactions := [tx0] }).2 rfl

/-- C9: `toJSON` with the include-flag false yields transaction entries
that are transaction hashes only, while `toJSON true` yields full
transaction records; both are well-typed structured values. -/
theorem toJSON_spec (b : Block) :
    ((b.toJSON false).transactions =
      b.transactions.map (fun t => TxJson.hashOnly t.txHash)) ∧
    ((b.toJSON true).transactions = b.transactions.map TxJson.full) :=
  ⟨rfl, rfl⟩

/-- C10: for every block hash whose chain lookup succeeds,
`Eth.getBlockTransactionCountByHash` invokes its callback with a null
error and the string 0x followed by the lowercase hexadecimal encoding of
the length of the block's transaction list; if the lookup throws, the
callback is invoked with that error and no value. -/
theorem getBlockTransactionCountByHash_spec {ε : Type}
    (getBlock : Bytes → Except ε Block) (bh : Bytes) :
    (∀ blk, getBlock bh = Except.ok blk →
      getBlockTransactionCountByHash getBlock bh =
        CbCall.ok ("0x" ++ natToHex blk.transactions.length)) ∧
    (∀ e, getBlock bh = Except.error e →
      getBlockTransactionCountByHash getBlock bh = CbCall.err e) := by
  constructor
  · intro blk hb
    simp [getBlockTransactionCountByHash, hb, Block.toJSON]
  · intro e hb
    simp [getBlockTransactionCountByHash, hb]

/-- Witness for C10: a chain with a fixed two-transaction block answers
with the hex transaction count, and a throwing chain propagates the
error. -/
theorem getBlockTransactionCountByHash_spec_witness :
    getBlockTransactionCountByHash
        (fun _ => (Except.ok gb2 : Except Unit Block)) [] =
      CbCall.ok ("0x" ++ natToHex gb2.transactions.length) ∧
    getBlockTransactionCountByHash
        (fun _ => (Except.error () : Except Unit Block)) [] =
      CbCall.err () :=
  ⟨(getBlockTransactionCountByHash_spec
      (fun _ => (Except.ok gb2 : Except Unit Block)) []).1 gb2 rfl,
   (getBlockTransactionCountByHash_spec
      (fun _ => (Except.error () : Except Unit Block)) []).2 () rfl⟩

end EthBlock
